import Mathlib

/-!
Verification development for the automated web-QA pipeline repository.

The repository ships, under `src/`:
  * `supabase/migrations/20251206014542_create_qa_system_schema.sql` — the
    relational schema (tables, foreign keys with their referential actions);
  * `supabase/functions/bug-report-query/index.ts` — the bug-report query
    edge function;
  * an unnamed edge-function source holding the `qa-test-runner` request
    endpoint and a report-generation endpoint.

The pipeline core itself (browser session manager, signal collector, test
runners, bug detector, orchestrator, scheduler) is not under `src/`; those
components are modelled from the specification, and every definition doing so
carries a doc comment starting `Modelled from the spec:`.

Everything else below is translated directly from the source files named in
each doc comment.
-/

/-! ## HTTP endpoint models

Both edge functions are `Deno.serve` handlers.  A request is modelled by its
method and its already-parsed inputs; a `none` body for a POST stands for a
JSON parse failure (which the handlers turn into a 500 via their `catch`).
JavaScript string truthiness (`!x` is true for `null`/`undefined`/`""`) is
modelled by `truthy` on `Option String`.
-/

inductive HttpMethod
  | options
  | get
  | post
  | other
deriving DecidableEq

/-- JavaScript truthiness of a string-or-null value: `null`/`undefined` and
the empty string are falsy, every other string is truthy. -/
def truthy : Option String → Bool
  | none => false
  | some s => !(s == "")

/-- Parsed JSON body of a POST to the qa-test-runner endpoint, mirroring the
`TestRequest` interface (`project_id`, `base_url`, `test_types`); every field
is optional at runtime since the interface is not validated by the parser. -/
structure TestRequest where
  project_id : Option String
  base_url : Option String
  test_types : Option (List String)
deriving DecidableEq

/-- Response of the qa-test-runner endpoint: HTTP status plus the JSON body
fields the handler can emit (`status`, `project_id`, `message`, `timestamp`,
`error`). -/
structure QTRResponse where
  status : Nat
  bodyStatus : Option String
  bodyProjectId : Option String
  bodyMessage : Option String
  bodyTimestamp : Option String
  bodyError : Option String
deriving DecidableEq

/-- POST branch of the qa-test-runner `Deno.serve` handler: 400 when
`!payload.project_id || !payload.base_url`, otherwise a 202 acknowledgement
`{status: "started", project_id, message, timestamp}`.  `now` is the value of
`new Date().toISOString()` at handling time. -/
def qaTestRunnerPost (payload : TestRequest) (now : String) : QTRResponse :=
  if !truthy payload.project_id || !truthy payload.base_url then
    { status := 400
      bodyStatus := none
      bodyProjectId := none
      bodyMessage := none
      bodyTimestamp := none
      bodyError := some "Missing required fields: project_id, base_url" }
  else
    { status := 202
      bodyStatus := some "started"
      bodyProjectId := payload.project_id
      bodyMessage := some "QA test suite initiated. Check database for updates."
      bodyTimestamp := some now
      bodyError := none }

/-- Full qa-test-runner `Deno.serve` dispatch: OPTIONS gives a bare 200, POST
parses the body (a parse failure is caught and returned as 500), GET requires
a `project_id` query parameter, anything else is 405. -/
def qaTestRunnerServe (method : HttpMethod) (postBody : Option TestRequest)
    (queryProjectId : Option String) (now : String) : QTRResponse :=
  match method with
  | .options =>
      { status := 200, bodyStatus := none, bodyProjectId := none
        bodyMessage := none, bodyTimestamp := none, bodyError := none }
  | .post =>
      match postBody with
      | none =>
          { status := 500, bodyStatus := none, bodyProjectId := none
            bodyMessage := none, bodyTimestamp := none
            bodyError := some "Internal server error" }
      | some payload => qaTestRunnerPost payload now
  | .get =>
      if !truthy queryProjectId then
        { status := 400, bodyStatus := none, bodyProjectId := none
          bodyMessage := none, bodyTimestamp := none
          bodyError := some "Missing project_id parameter" }
      else
        { status := 200, bodyStatus := none, bodyProjectId := queryProjectId
          bodyMessage := some "Retrieve test execution history from test_executions table"
          bodyTimestamp := none, bodyError := none }
  | .other =>
      { status := 405, bodyStatus := none, bodyProjectId := none
        bodyMessage := none, bodyTimestamp := none
        bodyError := some "Method not allowed" }

/-- Response of the bug-report-query endpoint: HTTP status, error body, and
the echo of the query filters the success branch returns. -/
structure BRQResponse where
  status : Nat
  bodyError : Option String
  echoExecutionId : Option String
  echoProjectId : Option String
  echoSeverity : Option String
deriving DecidableEq

/-- GET branch of the bug-report-query `Deno.serve` handler: reads
`execution_id`, `project_id` and `severity` from the query string
(`searchParams.get` gives `null` for an absent parameter); 400 when
`!execution_id && !project_id`, otherwise 200 echoing the filters. -/
def bugReportQueryGet (execution_id project_id severity : Option String) : BRQResponse :=
  if !truthy execution_id && !truthy project_id then
    { status := 400
      bodyError := some "Missing execution_id or project_id parameter"
      echoExecutionId := none, echoProjectId := none, echoSeverity := none }
  else
    { status := 200
      bodyError := none
      echoExecutionId := execution_id
      echoProjectId := project_id
      echoSeverity := severity }

/-! ## Relational schema: referential actions on execution deletion

From `supabase/migrations/20251206014542_create_qa_system_schema.sql`.  The
columns relevant to row ownership are kept; identifiers are `Nat` in place of
`uuid`.  The referential actions are exactly those of the migration:

  * `bug_reports.execution_id uuid REFERENCES test_executions(id) ON DELETE SET NULL`
    (nullable), and `bug_reports.project_id ... ON DELETE CASCADE`;
  * `performance_metrics.execution_id uuid NOT NULL REFERENCES test_executions(id) ON DELETE CASCADE`;
  * `accessibility_issues.execution_id uuid NOT NULL REFERENCES test_executions(id) ON DELETE CASCADE`.
-/

/-- Row of `test_executions` (ownership-relevant columns). -/
structure ExecutionRow where
  id : Nat
  project_id : Nat
deriving DecidableEq

/-- Row of `bug_reports` (ownership-relevant columns): `execution_id` is
nullable with `ON DELETE SET NULL`. -/
structure BugReportsRow where
  id : Nat
  project_id : Nat
  execution_id : Option Nat
  severity : String
deriving DecidableEq

/-- Row of `performance_metrics` (ownership-relevant columns):
`execution_id` is `NOT NULL` with `ON DELETE CASCADE`. -/
structure PerformanceMetricsRow where
  id : Nat
  execution_id : Nat
  page_url : String
deriving DecidableEq

/-- Row of `accessibility_issues` (ownership-relevant columns):
`execution_id` is `NOT NULL` with `ON DELETE CASCADE`. -/
structure AccessibilityIssuesRow where
  id : Nat
  execution_id : Nat
  issue_type : String
deriving DecidableEq

/-- Database state: the tables reached by deleting a `test_executions` row. -/
structure DbState where
  test_executions : List ExecutionRow
  bug_reports : List BugReportsRow
  performance_metrics : List PerformanceMetricsRow
  accessibility_issues : List AccessibilityIssuesRow
deriving DecidableEq

/-- Effect of `DELETE FROM test_executions WHERE id = e` under the migration's
referential actions: `performance_metrics` and `accessibility_issues` rows
referencing `e` are cascade-deleted; `bug_reports` rows referencing `e` are
kept with `execution_id` set to `NULL`. -/
def deleteExecution (e : Nat) (db : DbState) : DbState :=
  { test_executions := db.test_executions.filter (fun r => r.id ≠ e)
    bug_reports := db.bug_reports.map (fun r =>
      if r.execution_id = some e then { r with execution_id := none } else r)
    performance_metrics := db.performance_metrics.filter (fun r => r.execution_id ≠ e)
    accessibility_issues := db.accessibility_issues.filter (fun r => r.execution_id ≠ e) }

/-- A one-execution database holding one bug report, one metric and one issue
owned by execution `1`. -/
def dbC1 : DbState :=
  { test_executions := [{ id := 1, project_id := 5 }]
    bug_reports := [{ id := 10, project_id := 5, execution_id := some 1, severity := "high" }]
    performance_metrics := [{ id := 20, execution_id := 1, page_url := "https://example.com" }]
    accessibility_issues := [{ id := 30, execution_id := 1, issue_type := "missing_alt_text" }] }

/-! ## Pipeline core (modelled from the spec)

The test runners, Bug Detector, Orchestrator and Scheduler live outside
`src/`; the definitions below are modelled from §3–§4.6 of the specification.
-/

/-- Modelled from the spec: the closed set of 13 bug-type categories of the
canonical BugReport taxonomy (§3). -/
inductive BugType
  | broken_image
  | broken_link
  | console_error
  | network_error
  | missing_alt_text
  | form_validation_error
  | performance_issue
  | security_issue
  | layout_issue
  | missing_heading
  | missing_label
  | insufficient_contrast
  | javascript_error
deriving DecidableEq

/-- Modelled from the spec: the severity scale of a BugReport (§3). -/
inductive Severity
  | critical
  | high
  | medium
  | low
  | info
deriving DecidableEq

/-- Modelled from the spec: a WCAG conformance level tag (A / AA) carried by
accessibility findings (§4.3). -/
inductive WcagLevel
  | levelA
  | levelAA
deriving DecidableEq

/-- Modelled from the spec: the runner-supplied content hints consumed by
severity assignment (§4.4): an HTTP status code for link findings (`none`
standing for a network failure), a WCAG level for accessibility findings, an
informational flag, and the raw message inspected for fatal patterns. -/
structure Hints where
  statusCode : Option Nat
  wcagLevel : Option WcagLevel
  informational : Bool
  message : String
deriving DecidableEq

/-- Modelled from the spec: a raw runner-internal Finding (§3):
`{page_url, category, severity-relevant hints, description}`; ephemeral,
consumed by the Bug Detector. -/
structure Finding where
  page_url : String
  bug_type : BugType
  description : String
  hints : Hints
deriving DecidableEq

/-- Substring test on character lists, used for fatal-pattern detection. -/
def containsPat (hay pat : List Char) : Bool :=
  match hay with
  | [] => pat.isEmpty
  | _ :: t => pat.isPrefixOf hay || containsPat t pat

/-- Modelled from the spec: known fatal message patterns (§4.4) that promote
console/network errors to `critical` (stack-overflow, out-of-memory). -/
def fatalPattern (msg : String) : Bool :=
  containsPat msg.data "stack overflow".data || containsPat msg.data "out of memory".data

/-- Modelled from the spec: accessibility severity from the WCAG level hint —
an AA violation is `medium` (§4.4); a level-A violation is ranked `high`. -/
def accessSeverity (h : Hints) : Severity :=
  match h.wcagLevel with
  | some .levelAA => .medium
  | some .levelA => .high
  | none => .medium

/-- Modelled from the spec: severity assignment, a fixed lookup from
`bug_type` plus the runner-supplied hints (§4.4): informational findings are
`info`; a 5xx broken link is `critical` and a 4xx is `high`; console and
network errors are promoted to `critical` on a fatal message pattern;
accessibility severities come from the WCAG level. -/
def severityFor (t : BugType) (h : Hints) : Severity :=
  if h.informational then .info
  else
    match t with
    | .broken_link =>
        match h.statusCode with
        | some c => if 500 ≤ c then .critical else if 400 ≤ c then .high else .low
        | none => .high
    | .broken_image => .medium
    | .console_error => if fatalPattern h.message then .critical else .medium
    | .network_error => if fatalPattern h.message then .critical else .medium
    | .javascript_error => if fatalPattern h.message then .critical else .high
    | .missing_alt_text => accessSeverity h
    | .missing_label => accessSeverity h
    | .missing_heading => accessSeverity h
    | .insufficient_contrast => accessSeverity h
    | .form_validation_error => .medium
    | .performance_issue => .medium
    | .security_issue => .critical
    | .layout_issue => .low

/-- Modelled from the spec: severity of a Finding — a function of its
`bug_type` and its content hints only (§4.4, §8). -/
def assignSeverity (f : Finding) : Severity :=
  severityFor f.bug_type f.hints

/-- Modelled from the spec: a short canonical title per bug type, used when a
Finding becomes a BugReport. -/
def titleFor : BugType → String
  | .broken_image => "Broken image"
  | .broken_link => "Broken link"
  | .console_error => "Console error"
  | .network_error => "Network error"
  | .missing_alt_text => "Image missing alt text"
  | .form_validation_error => "Form validation error"
  | .performance_issue => "Performance issue"
  | .security_issue => "Security issue"
  | .layout_issue => "Layout issue"
  | .missing_heading => "Heading structure issue"
  | .missing_label => "Form input missing label"
  | .insufficient_contrast => "Insufficient color contrast"
  | .javascript_error => "JavaScript error"

/-- Modelled from the spec: the canonical BugReport record (§3) — the fields
that identify and classify a deduplicated defect. -/
structure BugReport where
  execution_id : Nat
  title : String
  bug_type : BugType
  severity : Severity
  page_url : String
  description : String
deriving DecidableEq

/-- Modelled from the spec: the description-hash used inside the
deduplication key; a 32-bit polynomial rolling hash of the description. -/
def descriptionHash (s : String) : Nat :=
  s.data.foldl (fun h c => (h * 31 + c.toNat) % 4294967296) 7

/-- Modelled from the spec: the deduplication key of a Finding within an
execution — `(execution_id, page_url, bug_type, description-hash)` (§3, §4.4). -/
def dedupKey (execId : Nat) (f : Finding) : Nat × String × BugType × Nat :=
  (execId, f.page_url, f.bug_type, descriptionHash f.description)

/-- Modelled from the spec: the deduplication key recomputed from a stored
BugReport row. -/
def reportKey (r : BugReport) : Nat × String × BugType × Nat :=
  (r.execution_id, r.page_url, r.bug_type, descriptionHash r.description)

/-- Modelled from the spec: promotion of one Finding into a BugReport for a
given execution (§4.4). -/
def mkReport (execId : Nat) (f : Finding) : BugReport :=
  { execution_id := execId
    title := titleFor f.bug_type
    bug_type := f.bug_type
    severity := assignSeverity f
    page_url := f.page_url
    description := f.description }

/-- Modelled from the spec: the Bug Detector's grouping pass — walk the
findings in canonical order carrying the set of deduplication keys already
emitted; the first occurrence per key wins, subsequent duplicates are
discarded (§4.4). -/
def classifyAux (execId : Nat) : List Finding → List (Nat × String × BugType × Nat) → List BugReport
  | [], _ => []
  | f :: fs, seen =>
      if dedupKey execId f ∈ seen then
        classifyAux execId fs seen
      else
        mkReport execId f :: classifyAux execId fs (dedupKey execId f :: seen)

/-- Modelled from the spec: the Bug Detector's
`classify(findings, execution_id) -> list<BugReport>` (§4.4). -/
def classify (findings : List Finding) (execId : Nat) : List BugReport :=
  classifyAux execId findings []

/-- Keys already seen after `classifyAux` has walked `fs` starting from
`seen` — the detector's running deduplication state. -/
def seenAfter (execId : Nat) : List Finding → List (Nat × String × BugType × Nat) → List (Nat × String × BugType × Nat)
  | [], seen => seen
  | f :: fs, seen =>
      if dedupKey execId f ∈ seen then
        seenAfter execId fs seen
      else
        seenAfter execId fs (dedupKey execId f :: seen)

/-! ## Orchestrator (modelled from the spec, §4.5, §7) -/

/-- Modelled from the spec: the Execution status machine
`running → {completed | failed}` (§3, §4.5). -/
inductive ExecStatus
  | running
  | completed
  | failed
deriving DecidableEq

/-- Modelled from the spec: the Execution record the orchestrator maintains —
status, the recorded causing error on failure, and running totals (§3). -/
structure Execution where
  project_id : Nat
  status : ExecStatus
  error : Option String
  total_tests : Nat
deriving DecidableEq

/-- Modelled from the spec: the outcome of one test-type run inside the
suite — either the runner's findings, or an unhandled runner-level exception
carrying its message (§4.5 step 2, §7). -/
inductive RunnerOutcome
  | ok (findings : List Finding)
  | exn (msg : String)
deriving DecidableEq

/-- Whether a runner outcome is an unhandled runner-level exception. -/
def RunnerOutcome.isExn : RunnerOutcome → Bool
  | .ok _ => false
  | .exn _ => true

/-- Modelled from the spec: sequential accumulation of findings across the
requested test types, stopping at the first unhandled runner-level exception
(§4.5 step 2). -/
def collectFindings : List RunnerOutcome → Except String (List Finding)
  | [] => .ok []
  | .ok fs :: rest => (collectFindings rest).map (fun acc => fs ++ acc)
  | .exn m :: _ => .error m

/-- Modelled from the spec: the terminal result the orchestrator hands back —
a terminal Execution plus the flushed BugReports. -/
structure SuiteResult where
  execution : Execution
  reports : List BugReport
deriving DecidableEq

/-- Modelled from the spec: `run_complete_qa_suite(project_id, base_url,
test_types)` (§4.5): creates the Execution as `running`, runs the test types
sequentially, and transitions to `completed` flushing the classified
BugReports, or — on any unhandled runner-level exception — to `failed` with
the causing error recorded.  The function is total: no exception escapes the
orchestrator boundary. -/
def run_complete_qa_suite (project_id execId : Nat) (outcomes : List RunnerOutcome) : SuiteResult :=
  match collectFindings outcomes with
  | .error m =>
      { execution :=
          { project_id := project_id, status := .failed, error := some m
            total_tests := outcomes.length }
        reports := [] }
  | .ok fs =>
      { execution :=
          { project_id := project_id, status := .completed, error := none
            total_tests := outcomes.length }
        reports := classify fs execId }

/-! ## Broken-Links runner (modelled from the spec, §4.3) -/

/-- Modelled from the spec: the observed outcome of the lightweight request
the Broken-Links runner issues per unique link — a direct status, a 3xx
redirect followed once (with the final status, `none` if the follow failed on
the network), or a network failure (§4.3). -/
inductive FetchResult
  | status (code : Nat)
  | redirect (code : Nat) (finalStatus : Option Nat)
  | netFailure
deriving DecidableEq

/-- Final HTTP status a link probe resolves to, after following a redirect
once; `none` stands for a network failure. -/
def finalStatusOf : FetchResult → Option Nat
  | .status c => some c
  | .redirect _ f => f
  | .netFailure => none

/-- Modelled from the spec: the Broken-Links classification rule — status
≥ 400 or network failure is broken; a followed redirect is judged by its
final status and is not flagged for the redirect itself (§4.3). -/
def isBrokenFetch (r : FetchResult) : Bool :=
  match finalStatusOf r with
  | some c => if 400 ≤ c then true else false
  | none => true

/-- First-occurrence deduplication of probed links by href, carrying the set
of hrefs already requested. -/
def uniqueLinksAux : List (String × FetchResult) → List String → List (String × FetchResult)
  | [], _ => []
  | (href, r) :: rest, seen =>
      if href ∈ seen then uniqueLinksAux rest seen
      else (href, r) :: uniqueLinksAux rest (href :: seen)

/-- First-occurrence deduplication of probed links by href — the runner
issues one request per unique link (§4.3). -/
def uniqueLinks (links : List (String × FetchResult)) : List (String × FetchResult) :=
  uniqueLinksAux links []

/-- Modelled from the spec: the Broken-Links runner — extract hrefs, probe
each unique link, and yield a `broken_link` Finding (status code carried as a
hint) for status ≥ 400 or network failure; 3xx responses are followed once
and recorded, not flagged (§4.3). -/
def brokenLinksRun (pageUrl : String) (links : List (String × FetchResult)) : List Finding :=
  (uniqueLinks links).filterMap (fun p =>
    if isBrokenFetch p.2 then
      some { page_url := pageUrl
             bug_type := .broken_link
             description := "Broken link: " ++ p.1
             hints :=
               { statusCode := finalStatusOf p.2
                 wcagLevel := none
                 informational := false
                 message := "" } }
    else none)

/-! ## Scheduler (modelled from the spec, §4.6, §6)

Time is measured in whole minutes since an epoch whose minute 0 is the top of
an hour at the start of a day; a cron expression is the standard five-field
form, with each field matched against the corresponding component of the
time.  Day-of-month and month use a simplified linear calendar (31-day
months), irrelevant for expressions leaving those fields unrestricted.
-/

/-- Modelled from the spec: one field of a five-field cron expression —
`*`, `*/n`, or a literal value (§6). -/
inductive CronField
  | star
  | step (n : Nat)
  | exact (n : Nat)
deriving DecidableEq

/-- Matching of one cron field against a time component. -/
def fieldMatches : CronField → Nat → Bool
  | .star, _ => true
  | .step n, v => v % n == 0
  | .exact n, v => v == n

/-- Modelled from the spec: a standard five-field cron expression
(minute hour day month weekday) (§6). -/
structure CronExpr where
  minute : CronField
  hour : CronField
  day : CronField
  month : CronField
  weekday : CronField
deriving DecidableEq

/-- Whether the cron expression matches the instant `t` (minutes since the
epoch). -/
def cronMatches (c : CronExpr) (t : Nat) : Bool :=
  fieldMatches c.minute (t % 60) &&
  fieldMatches c.hour (t / 60 % 24) &&
  fieldMatches c.day (t / 1440 % 31 + 1) &&
  fieldMatches c.month (t / 44640 % 12 + 1) &&
  fieldMatches c.weekday (t / 1440 % 7)

/-- Bounded search for the first matching instant strictly after `t`. -/
def nextRunAux (c : CronExpr) : Nat → Nat → Option Nat
  | 0, _ => none
  | fuel + 1, t => if cronMatches c (t + 1) then some (t + 1) else nextRunAux c fuel (t + 1)

/-- Modelled from the spec: `next_run` recomputation — the earliest instant
strictly after `t` matching the cron expression, searched up to one (366-day)
year ahead (§4.6). -/
def nextRun (c : CronExpr) (t : Nat) : Option Nat :=
  nextRunAux c 527040 t

/-- Modelled from the spec: a Schedule row
`{project_id, cron_expression, enabled, last_run, next_run}` (§3). -/
structure Schedule where
  project_id : Nat
  cron : CronExpr
  enabled : Bool
  last_run : Option Nat
  next_run : Option Nat
deriving DecidableEq

/-- Modelled from the spec: a Schedule is due at `now` when it is enabled and
its `next_run` has arrived (§4.6). -/
def due (s : Schedule) (now : Nat) : Bool :=
  s.enabled &&
    match s.next_run with
    | some t => t ≤ now
    | none => false

/-- Modelled from the spec: the Scheduler's treatment of one Schedule on a
tick (§4.6): a due Schedule whose project still has a running invocation is
skipped — not queued, row untouched; otherwise a due Schedule fires, its
`last_run` is set to `now` and `next_run` is recomputed; the fired project id
is returned as the invocation. -/
def tickOne (running : List Nat) (now : Nat) (s : Schedule) : Schedule × Option Nat :=
  if due s now then
    if s.project_id ∈ running then
      (s, none)
    else
      ({ s with last_run := some now, next_run := nextRun s.cron now }, some s.project_id)
  else
    (s, none)

/-- Modelled from the spec: one Scheduler tick over all Schedules — one
invocation per due schedule, skips for projects still running (§4.6). -/
def tick (running : List Nat) (now : Nat) (ss : List Schedule) : List Schedule × List Nat :=
  ((ss.map (tickOne running now)).map Prod.fst,
   (ss.map (tickOne running now)).filterMap Prod.snd)

/-- The cron expression `*/30 * * * *`. -/
def every30 : CronExpr :=
  { minute := .step 30, hour := .star, day := .star, month := .star, weekday := .star }

/-! ## Lemmas about the Bug Detector -/

/-- The key of a promoted report is the finding's deduplication key. -/
theorem reportKey_mkReport (execId : Nat) (f : Finding) :
    reportKey (mkReport execId f) = dedupKey execId f := rfl

/-- Every report emitted by the detector carries the classifying execution id. -/
theorem classifyAux_execution_id (execId : Nat) :
    ∀ (fs : List Finding) (seen : List (Nat × String × BugType × Nat)),
      ∀ r ∈ classifyAux execId fs seen, r.execution_id = execId := by
  intro fs
  induction fs with
  | nil => intro seen r hr; simp [classifyAux] at hr
  | cons f fs ih =>
      intro seen r hr
      by_cases hk : dedupKey execId f ∈ seen
      · rw [classifyAux, if_pos hk] at hr
        exact ih _ r hr
      · rw [classifyAux, if_neg hk, List.mem_cons] at hr
        rcases hr with hr | hr
        · rw [hr]; rfl
        · exact ih _ r hr

/-- Membership in the detector's running key set after a walk. -/
theorem mem_seenAfter (execId : Nat) :
    ∀ (fs : List Finding) (seen : List (Nat × String × BugType × Nat)) (k : Nat × String × BugType × Nat),
      k ∈ seenAfter execId fs seen ↔ k ∈ seen ∨ k ∈ fs.map (dedupKey execId) := by
  intro fs
  induction fs with
  | nil => intro seen k; simp [seenAfter]
  | cons f fs ih =>
      intro seen k
      by_cases hk : dedupKey execId f ∈ seen
      · rw [seenAfter, if_pos hk, ih]
        simp only [List.map_cons, List.mem_cons]
        constructor
        · rintro (h | h)
          · exact Or.inl h
          · exact Or.inr (Or.inr h)
        · rintro (h | h | h)
          · exact Or.inl h
          · exact Or.inl (h ▸ hk)
          · exact Or.inr h
      · rw [seenAfter, if_neg hk, ih]
        simp only [List.mem_cons, List.map_cons]
        tauto

/-- Walking a concatenation splits into two walks, the second starting from
the keys accumulated by the first. -/
theorem classifyAux_append (execId : Nat) :
    ∀ (fs gs : List Finding) (seen : List (Nat × String × BugType × Nat)),
      classifyAux execId (fs ++ gs) seen =
        classifyAux execId fs seen ++ classifyAux execId gs (seenAfter execId fs seen) := by
  intro fs
  induction fs with
  | nil => intro gs seen; simp [classifyAux, seenAfter]
  | cons f fs ih =>
      intro gs seen
      by_cases hk : dedupKey execId f ∈ seen
      · rw [List.cons_append, classifyAux, if_pos hk, classifyAux, if_pos hk, seenAfter, if_pos hk, ih]
      · rw [List.cons_append, classifyAux, if_neg hk, classifyAux, if_neg hk, seenAfter, if_neg hk, ih,
          List.cons_append]

/-- Findings whose keys were all seen already produce no report. -/
theorem classifyAux_all_seen (execId : Nat) :
    ∀ (fs : List Finding) (seen : List (Nat × String × BugType × Nat)),
      (∀ f ∈ fs, dedupKey execId f ∈ seen) → classifyAux execId fs seen = [] := by
  intro fs
  induction fs with
  | nil => intro seen _; rfl
  | cons f fs ih =>
      intro seen h
      rw [classifyAux, if_pos (h f (List.mem_cons_self f fs))]
      exact ih seen (fun g hg => h g (List.mem_cons_of_mem f hg))

/-- The detector never emits a key it has already seen, and never emits the
same key twice. -/
theorem classifyAux_keys_nodup (execId : Nat) :
    ∀ (fs : List Finding) (seen : List (Nat × String × BugType × Nat)),
      ((classifyAux execId fs seen).map reportKey).Nodup
      ∧ ∀ k ∈ (classifyAux execId fs seen).map reportKey, k ∉ seen := by
  intro fs
  induction fs with
  | nil => intro seen; simp [classifyAux]
  | cons f fs ih =>
      intro seen
      by_cases hk : dedupKey execId f ∈ seen
      · rw [classifyAux, if_pos hk]
        exact ih seen
      · rw [classifyAux, if_neg hk]
        obtain ⟨ihnodup, ihfresh⟩ := ih (dedupKey execId f :: seen)
        constructor
        · rw [List.map_cons, List.nodup_cons, reportKey_mkReport]
          refine ⟨fun hmem => ?_, ihnodup⟩
          exact ihfresh _ hmem (List.mem_cons_self _ _)
        · intro k hkmem
          rw [List.map_cons, List.mem_cons, reportKey_mkReport] at hkmem
          rcases hkmem with h | h
          · rw [h]; exact hk
          · intro hks
            exact ihfresh k h (List.mem_cons_of_mem _ hks)

/-- Modelled from the spec: the reachable states of the persisted BugReport
table under the core's operations — starting empty, each completed Execution
flushes the Bug Detector's output for a fresh execution id exactly once
(§3, §4.5: an Execution is created at orchestration start, reaches a terminal
status exactly once and is never re-opened). -/
inductive ReachableBugTable : List BugReport → Prop
  | init : ReachableBugTable []
  | flush (rows : List BugReport) (fs : List Finding) (execId : Nat)
      (hfresh : ∀ r ∈ rows, r.execution_id ≠ execId)
      (hprev : ReachableBugTable rows) :
      ReachableBugTable (rows ++ classify fs execId)

/-- A suite run with no unhandled runner-level exception accumulates all
findings successfully. -/
theorem collectFindings_ok (outcomes : List RunnerOutcome)
    (h : outcomes.any RunnerOutcome.isExn = false) :
    ∃ fs, collectFindings outcomes = Except.ok fs := by
  induction outcomes with
  | nil => exact ⟨[], rfl⟩
  | cons o rest ih =>
      rw [List.any_cons, Bool.or_eq_false_iff] at h
      cases o with
      | ok fs0 =>
          obtain ⟨fs, hfs⟩ := ih h.2
          exact ⟨fs0 ++ fs, by rw [collectFindings, hfs]; rfl⟩
      | exn m => simp [RunnerOutcome.isExn] at h

/-- A suite run containing an unhandled runner-level exception stops with an
error. -/
theorem collectFindings_error (outcomes : List RunnerOutcome)
    (h : outcomes.any RunnerOutcome.isExn = true) :
    ∃ m, collectFindings outcomes = Except.error m := by
  induction outcomes with
  | nil => simp at h
  | cons o rest ih =>
      cases o with
      | ok fs0 =>
          rw [List.any_cons] at h
          simp only [RunnerOutcome.isExn, Bool.false_or] at h
          obtain ⟨m, hm⟩ := ih h
          exact ⟨m, by rw [collectFindings, hm]; rfl⟩
      | exn m => exact ⟨m, rfl⟩

/-! ## Claim theorems -/

/-- C1 counterexample: the claim "deleting the Execution cascade-deletes
every BugReport row it owns" fails on the schema.  In `dbC1` the single
`bug_reports` row belongs to execution 1, yet after
`DELETE FROM test_executions WHERE id = 1` the row is still present — with
`execution_id` set to `NULL`, per `ON DELETE SET NULL`. -/
theorem deleteExecution_keeps_bug_report_row :
    dbC1.bug_reports =
      [{ id := 10, project_id := 5, execution_id := some 1, severity := "high" }]
    ∧ (deleteExecution 1 dbC1).bug_reports =
      [{ id := 10, project_id := 5, execution_id := none, severity := "high" }]
    ∧ (deleteExecution 1 dbC1).bug_reports ≠ [] := by
  refine ⟨rfl, rfl, ?_⟩
  decide

/-- C1 (amended): deleting an Execution cascade-deletes every
PerformanceMetric and AccessibilityIssue row it owns, while its BugReport
rows all survive with `execution_id` set to `NULL` (BugReports are
cascade-deleted with the owning Project via `project_id`, not with the
Execution). -/
theorem deleteExecution_referential_actions (e : Nat) (db : DbState) :
    (∀ r ∈ (deleteExecution e db).performance_metrics, r.execution_id ≠ e)
    ∧ (∀ r ∈ (deleteExecution e db).accessibility_issues, r.execution_id ≠ e)
    ∧ (deleteExecution e db).bug_reports.length = db.bug_reports.length
    ∧ (∀ r ∈ (deleteExecution e db).bug_reports, r.execution_id ≠ some e) := by
  refine ⟨?_, ?_, ?_, ?_⟩
  · intro r hr
    rw [deleteExecution] at hr
    simp only [List.mem_filter, decide_eq_true_eq] at hr
    exact hr.2
  · intro r hr
    rw [deleteExecution] at hr
    simp only [List.mem_filter, decide_eq_true_eq] at hr
    exact hr.2
  · rw [deleteExecution]
    exact List.length_map _ _
  · intro r hr
    rw [deleteExecution] at hr
    simp only [List.mem_map] at hr
    obtain ⟨r0, _, hr0⟩ := hr
    by_cases h : r0.execution_id = some e
    · rw [if_pos h] at hr0
      rw [← hr0]
      simp
    · rw [if_neg h] at hr0
      rw [← hr0]
      exact h

/-- C1 witness: the amended referential actions evaluated on the concrete
one-execution database `dbC1`. -/
theorem deleteExecution_referential_actions_witness :
    (∀ r ∈ (deleteExecution 1 dbC1).performance_metrics, r.execution_id ≠ 1)
    ∧ (∀ r ∈ (deleteExecution 1 dbC1).accessibility_issues, r.execution_id ≠ 1)
    ∧ (deleteExecution 1 dbC1).bug_reports.length = dbC1.bug_reports.length
    ∧ (∀ r ∈ (deleteExecution 1 dbC1).bug_reports, r.execution_id ≠ some 1) :=
  deleteExecution_referential_actions 1 dbC1

/-- C2: a POST to the qa-test-runner endpoint whose body carries a (truthy)
`project_id` and `base_url` is acknowledged with HTTP 202 and a body holding
`status: "started"`, the same `project_id`, and the handling-time timestamp;
the handler performs no pipeline work before responding. -/
theorem qaTestRunner_post_acknowledges_started
    (payload : TestRequest) (q : Option String) (now : String)
    (hp : truthy payload.project_id = true) (hb : truthy payload.base_url = true) :
    (qaTestRunnerServe .post (some payload) q now).status = 202
    ∧ (qaTestRunnerServe .post (some payload) q now).bodyStatus = some "started"
    ∧ (qaTestRunnerServe .post (some payload) q now).bodyProjectId = payload.project_id
    ∧ (qaTestRunnerServe .post (some payload) q now).bodyTimestamp = some now := by
  simp [qaTestRunnerServe, qaTestRunnerPost, hp, hb]

/-- C2 witness: the acknowledgement evaluated on a concrete request. -/
theorem qaTestRunner_post_acknowledges_started_witness :
    truthy (some "proj-1") = true
    ∧ truthy (some "https://example.com") = true
    ∧ ((qaTestRunnerServe .post
          (some { project_id := some "proj-1", base_url := some "https://example.com"
                  test_types := some ["functional"] })
          none "2026-01-02T03:04:05.000Z").status = 202
        ∧ (qaTestRunnerServe .post
          (some { project_id := some "proj-1", base_url := some "https://example.com"
                  test_types := some ["functional"] })
          none "2026-01-02T03:04:05.000Z").bodyStatus = some "started"
        ∧ (qaTestRunnerServe .post
          (some { project_id := some "proj-1", base_url := some "https://example.com"
                  test_types := some ["functional"] })
          none "2026-01-02T03:04:05.000Z").bodyProjectId = some "proj-1"
        ∧ (qaTestRunnerServe .post
          (some { project_id := some "proj-1", base_url := some "https://example.com"
                  test_types := some ["functional"] })
          none "2026-01-02T03:04:05.000Z").bodyTimestamp = some "2026-01-02T03:04:05.000Z") :=
  ⟨by decide, by decide,
   qaTestRunner_post_acknowledges_started
     { project_id := some "proj-1", base_url := some "https://example.com"
       test_types := some ["functional"] }
     none "2026-01-02T03:04:05.000Z" (by decide) (by decide)⟩

/-- C3: every invocation of `run_complete_qa_suite` returns an Execution in
exactly one terminal status: `completed` when no runner-level exception
occurred, `failed` with the causing error recorded when one did; the function
is total, so no exception escapes the orchestrator boundary and `running`
never persists past the call's return. -/
theorem run_complete_qa_suite_terminal
    (project_id execId : Nat) (outcomes : List RunnerOutcome) :
    ((run_complete_qa_suite project_id execId outcomes).execution.status = ExecStatus.completed
      ∨ (run_complete_qa_suite project_id execId outcomes).execution.status = ExecStatus.failed)
    ∧ (run_complete_qa_suite project_id execId outcomes).execution.status ≠ ExecStatus.running
    ∧ (outcomes.any RunnerOutcome.isExn = true →
        (run_complete_qa_suite project_id execId outcomes).execution.status = ExecStatus.failed
        ∧ (run_complete_qa_suite project_id execId outcomes).execution.error.isSome = true)
    ∧ (outcomes.any RunnerOutcome.isExn = false →
        (run_complete_qa_suite project_id execId outcomes).execution.status = ExecStatus.completed
        ∧ (run_complete_qa_suite project_id execId outcomes).execution.error = none) := by
  refine ⟨?_, ?_, ?_, ?_⟩
  · cases h : collectFindings outcomes with
    | error m => exact Or.inr (by simp [run_complete_qa_suite, h])
    | ok fs => exact Or.inl (by simp [run_complete_qa_suite, h])
  · cases h : collectFindings outcomes with
    | error m => simp [run_complete_qa_suite, h]
    | ok fs => simp [run_complete_qa_suite, h]
  · intro hexn
    obtain ⟨m, hm⟩ := collectFindings_error outcomes hexn
    simp [run_complete_qa_suite, hm]
  · intro hok
    obtain ⟨fs, hfs⟩ := collectFindings_ok outcomes hok
    simp [run_complete_qa_suite, hfs]

/-- C3 witness: the terminal-status guarantee evaluated on a concrete suite
containing one successful runner and one unhandled runner-level exception. -/
theorem run_complete_qa_suite_terminal_witness :
    ([RunnerOutcome.ok [], RunnerOutcome.exn "browser crashed"].any RunnerOutcome.isExn = true)
    ∧ ((run_complete_qa_suite 5 1 [RunnerOutcome.ok [], RunnerOutcome.exn "browser crashed"]).execution.status
          = ExecStatus.failed
        ∧ (run_complete_qa_suite 5 1 [RunnerOutcome.ok [], RunnerOutcome.exn "browser crashed"]).execution.error.isSome
          = true)
    ∧ (run_complete_qa_suite 5 1 [RunnerOutcome.ok [], RunnerOutcome.exn "browser crashed"]).execution.status
        ≠ ExecStatus.running :=
  ⟨by decide,
   (run_complete_qa_suite_terminal 5 1 [RunnerOutcome.ok [], RunnerOutcome.exn "browser crashed"]).2.2.1
     (by decide),
   (run_complete_qa_suite_terminal 5 1 [RunnerOutcome.ok [], RunnerOutcome.exn "browser crashed"]).2.1⟩

/-- C4: the Bug Detector's `classify` is idempotent under repeated runner
output — classifying a finding set concatenated with itself yields exactly
the BugReport set of one run — and the emitted set has pairwise-distinct
deduplication keys (no duplicate rows): the first occurrence per key in
canonical ordering wins. -/
theorem classify_idempotent_nodup (fs : List Finding) (execId : Nat) :
    classify (fs ++ fs) execId = classify fs execId
    ∧ ((classify fs execId).map reportKey).Nodup := by
  constructor
  · rw [classify, classify, classifyAux_append]
    have hall : ∀ f ∈ fs, dedupKey execId f ∈ seenAfter execId fs [] := by
      intro f hf
      rw [mem_seenAfter]
      exact Or.inr (List.mem_map_of_mem _ hf)
    rw [classifyAux_all_seen execId fs _ hall, List.append_nil]
  · exact (classifyAux_keys_nodup execId fs []).1

/-- C5: on every reachable state of the BugReport table each deduplication
key `(execution_id, page_url, bug_type, description-hash)` maps to at most
one BugReport row — the key list of the table is duplicate-free. -/
theorem reachable_bug_reports_key_unique (rows : List BugReport)
    (h : ReachableBugTable rows) : (rows.map reportKey).Nodup := by
  induction h with
  | init => simp
  | flush rows fs execId hfresh hprev ih =>
      rw [List.map_append]
      refine List.Nodup.append ih (classifyAux_keys_nodup execId fs []).1 ?_
      intro k hk1 hk2
      rw [List.mem_map] at hk1 hk2
      obtain ⟨r1, hr1, hkr1⟩ := hk1
      obtain ⟨r2, hr2, hkr2⟩ := hk2
      have he2 : r2.execution_id = execId := classifyAux_execution_id execId fs [] r2 hr2
      have hne : r1.execution_id ≠ execId := hfresh r1 hr1
      apply hne
      have : r1.execution_id = r2.execution_id := by
        have hkk : reportKey r1 = reportKey r2 := hkr1.trans hkr2.symm
        exact congrArg Prod.fst hkk
      rw [this, he2]

/-- A concrete console-error finding used by the C5 witness. -/
def findingW : Finding :=
  { page_url := "https://example.com"
    bug_type := .console_error
    description := "ReferenceError: foo is not defined"
    hints := { statusCode := none, wcagLevel := none, informational := false
               message := "ReferenceError: foo is not defined" } }

/-- C5 witness: a concrete reachable table — one flush of execution 1 over a
duplicated finding — and its duplicate-free key list. -/
theorem reachable_bug_reports_key_unique_witness :
    ReachableBugTable ([] ++ classify [findingW, findingW] 1)
    ∧ ((([] : List BugReport) ++ classify [findingW, findingW] 1).map reportKey).Nodup := by
  have hreach : ReachableBugTable ([] ++ classify [findingW, findingW] 1) :=
    ReachableBugTable.flush [] [findingW, findingW] 1 (by intro r hr; simp at hr)
      ReachableBugTable.init
  exact ⟨hreach, reachable_bug_reports_key_unique _ hreach⟩

/-- A page whose four links return 200, 301-redirecting-to-200, 404, and 500
respectively (§8). -/
def samplePage : List (String × FetchResult) :=
  [("https://example.com/a", .status 200),
   ("https://example.com/b", .redirect 301 (some 200)),
   ("https://example.com/c", .status 404),
   ("https://example.com/d", .status 500)]

/-- C6: on `samplePage` the Broken-Links runner followed by classification
produces BugReports for exactly the 404 and the 500 link — the 404 with
severity `high`, the 500 with severity `critical` — while the 200 link and
the once-followed 301 are not flagged. -/
theorem broken_links_sample_classification :
    classify (brokenLinksRun "https://example.com" samplePage) 1 =
      [{ execution_id := 1, title := "Broken link", bug_type := .broken_link
         severity := .high, page_url := "https://example.com"
         description := "Broken link: https://example.com/c" },
       { execution_id := 1, title := "Broken link", bug_type := .broken_link
         severity := .critical, page_url := "https://example.com"
         description := "Broken link: https://example.com/d" }] := by
  decide

/-- C7: a Schedule with cron `*/30 * * * *` firing at 12:00 (minute 720) has
its `next_run` recomputed to 12:30 (minute 750) and its `last_run` set to the
firing instant; and a due Schedule whose project still has a running
invocation is skipped — its row, `last_run` included, is left unchanged and
no invocation is queued. -/
theorem scheduler_next_run_and_single_flight :
    (∀ (s : Schedule) (running : List Nat), s.cron = every30 → due s 720 = true →
        s.project_id ∉ running →
        (tickOne running 720 s).1.next_run = some 750
        ∧ (tickOne running 720 s).1.last_run = some 720
        ∧ (tickOne running 720 s).2 = some s.project_id)
    ∧ (∀ (s : Schedule) (running : List Nat) (now : Nat), due s now = true →
        s.project_id ∈ running → tickOne running now s = (s, none)) := by
  constructor
  · intro s running hcron hdue hnotrun
    rw [tickOne, if_pos hdue, if_neg hnotrun]
    refine ⟨?_, rfl, rfl⟩
    show nextRun s.cron 720 = some 750
    rw [hcron]
    decide
  · intro s running now hdue hrun
    rw [tickOne, if_pos hdue, if_pos hrun]

/-- A Schedule on `*/30 * * * *` for project 9, due at minute 720. -/
def scheduleW : Schedule :=
  { project_id := 9, cron := every30, enabled := true
    last_run := some 690, next_run := some 720 }

/-- C7 witness: the firing and the single-flight skip evaluated on the
concrete Schedule `scheduleW` at 12:00. -/
theorem scheduler_next_run_and_single_flight_witness :
    due scheduleW 720 = true
    ∧ (9 ∉ ([] : List Nat))
    ∧ ((tickOne [] 720 scheduleW).1.next_run = some 750
        ∧ (tickOne [] 720 scheduleW).1.last_run = some 720
        ∧ (tickOne [] 720 scheduleW).2 = some scheduleW.project_id)
    ∧ (9 ∈ [9])
    ∧ tickOne [9] 720 scheduleW = (scheduleW, none) :=
  ⟨by decide, by decide,
   scheduler_next_run_and_single_flight.1 scheduleW [] rfl (by decide) (by decide),
   by decide,
   scheduler_next_run_and_single_flight.2 scheduleW [9] 720 (by decide) (by decide)⟩

/-- C8: severity assignment is a deterministic pure function of
`(bug_type, content hints)` — two Findings agreeing on bug type and hints
receive the same severity, whatever their other fields. -/
theorem assignSeverity_pure_function (f g : Finding)
    (ht : f.bug_type = g.bug_type) (hh : f.hints = g.hints) :
    assignSeverity f = assignSeverity g := by
  rw [assignSeverity, assignSeverity, ht, hh]

/-- Two console-error findings from different pages with different
descriptions but identical bug type and content hints. -/
def findingHintA : Finding :=
  { page_url := "https://example.com/checkout"
    bug_type := .console_error
    description := "console error observed on checkout"
    hints := { statusCode := none, wcagLevel := none, informational := false
               message := "Maximum call stack size exceeded: stack overflow" } }

/-- Companion finding to `findingHintA` for the C8 witness. -/
def findingHintB : Finding :=
  { page_url := "https://example.com/cart"
    bug_type := .console_error
    description := "console error observed on cart"
    hints := { statusCode := none, wcagLevel := none, informational := false
               message := "Maximum call stack size exceeded: stack overflow" } }

/-- C8 witness: equal bug type and hints on two concrete distinct findings
give equal severities. -/
theorem assignSeverity_pure_function_witness :
    findingHintA.bug_type = findingHintB.bug_type
    ∧ findingHintA.hints = findingHintB.hints
    ∧ assignSeverity findingHintA = assignSeverity findingHintB :=
  ⟨rfl, rfl, assignSeverity_pure_function findingHintA findingHintB rfl rfl⟩

/-- C9: a POST to the qa-test-runner endpoint is answered 400 with an error
body exactly when `project_id` or `base_url` is missing or falsy in the
parsed JSON body; `test_types` is never consulted, so changing or dropping it
never changes the response, and a body carrying only a truthy `project_id`
and `base_url` is acknowledged 202. -/
theorem qaTestRunner_post_validation (payload : TestRequest) (q : Option String) (now : String) :
    ((qaTestRunnerServe .post (some payload) q now).status = 400
        ↔ (truthy payload.project_id = false ∨ truthy payload.base_url = false))
    ∧ ((qaTestRunnerServe .post (some payload) q now).status = 400 →
        (qaTestRunnerServe .post (some payload) q now).bodyError.isSome = true)
    ∧ (∀ tt, qaTestRunnerServe .post (some { payload with test_types := tt }) q now
          = qaTestRunnerServe .post (some payload) q now)
    ∧ ((truthy payload.project_id = true ∧ truthy payload.base_url = true) →
        (qaTestRunnerServe .post (some payload) q now).status = 202) := by
  obtain ⟨pid, burl, tt0⟩ := payload
  cases hp : truthy pid <;> cases hb : truthy burl <;>
    simp [qaTestRunnerServe, qaTestRunnerPost, hp, hb]

/-- C9 witness: a POST carrying only `project_id` and `base_url`, with
`test_types` absent, is acknowledged 202. -/
theorem qaTestRunner_post_validation_witness :
    truthy (some "proj-2") = true
    ∧ truthy (some "https://example.org") = true
    ∧ (qaTestRunnerServe .post
        (some { project_id := some "proj-2", base_url := some "https://example.org"
                test_types := none })
        none "2026-01-02T03:04:05.000Z").status = 202 :=
  ⟨by decide, by decide,
   (qaTestRunner_post_validation
      { project_id := some "proj-2", base_url := some "https://example.org", test_types := none }
      none "2026-01-02T03:04:05.000Z").2.2.2 ⟨by decide, by decide⟩⟩

/-- C10 counterexample: the claim "400 exactly when both `execution_id` and
`project_id` are absent" fails — a GET carrying `execution_id` present but
equal to the empty string (with `project_id` absent) is answered 400, because
the handler tests JavaScript truthiness, not presence. -/
theorem bugReportQuery_empty_param_rejected :
    ¬ (((bugReportQueryGet (some "") none none).status = 400)
        ↔ ((some "" : Option String) = none ∧ (none : Option String) = none)) := by
  decide

/-- C10 (amended): the bug-report-query GET handler answers 400 exactly when
both `execution_id` and `project_id` are absent or empty (falsy) — so a
request carrying only a severity filter is rejected — and answers 200 on
every request carrying a nonempty `execution_id` or `project_id`. -/
theorem bugReportQuery_get_validation (eid pid sev : Option String) :
    ((bugReportQueryGet eid pid sev).status = 400
        ↔ (truthy eid = false ∧ truthy pid = false))
    ∧ ((truthy eid = true ∨ truthy pid = true) →
        (bugReportQueryGet eid pid sev).status = 200) := by
  cases he : truthy eid <;> cases hp : truthy pid <;>
    simp [bugReportQueryGet, he, hp]

/-- C10 witness: a severity-only request is rejected with 400; a request
carrying a nonempty `execution_id` is answered 200. -/
theorem bugReportQuery_get_validation_witness :
    ((bugReportQueryGet none none (some "critical")).status = 400
        ↔ (truthy (none : Option String) = false ∧ truthy (none : Option String) = false))
    ∧ (truthy (some "e1") = true ∨ truthy (none : Option String) = true)
    ∧ (bugReportQueryGet (some "e1") none (some "critical")).status = 200 :=
  ⟨(bugReportQuery_get_validation none none (some "critical")).1,
   Or.inl (by decide),
   (bugReportQuery_get_validation (some "e1") none (some "critical")).2 (Or.inl (by decide))⟩
